import Mathlib

/-!
Verification of the stock-reflection trade journal (Zenfolio).

This file shallowly embeds the data model and the operations of the
repository: the SQLite-backed ledger (`database.py`), the pure scoring and
classification functions (`score_calculator.py`, `action_detector.py`) and
the Streamlit submit handlers (`app.py`), and proves / refutes the frozen
claims about them.

Conventions of the embedding:
* Python floats on prices are modelled as `ℚ`; Python `int(x)` (truncation
  toward zero) is `py_int`.
* A SQLite table is a `List` of row structures; `AUTOINCREMENT` ids are an
  explicit counter in the `DB` state.
* `NULL`-able columns are `Option`.
* A Streamlit handler is a function `DB → Except AppError DB`: every
  `st.error` early return is an `.error` value, and an uncaught Python
  exception (the `KeyError` in the daily handler) is also an `.error`.
* Chinese string literals are kept verbatim from the source:
  `"买入"`/`"卖出"` = buy/sell, `"进行中"`/`"已结束"` = open/closed,
  `"主观评分"`/`"客观评分"` = subjective/objective score,
  `"涨了舍得卖"` = profit-taken, `"跌了舍得卖"` = loss-cut,
  `"涨了敢买"` = rallied-then-bought, `"跌了敢买"` = dipped-then-bought.
-/

namespace StockReflection

/-- A Python scalar as it appears in a pandas row (int, str or None). -/
inductive PyVal where
  | vNone : PyVal
  | vInt : ℤ → PyVal
  | vStr : String → PyVal
deriving DecidableEq

/-- models.py `Trade`: the record handed to `Database.add_trade`. -/
structure Trade where
  trade_group_id : Option Nat
  stock_code : String
  stock_name : String
  action_type : Option String
  trade_type : String
  buy_date : String
  sell_date : Option String
  buy_price : ℚ
  sell_price : Option ℚ
  quantity : ℤ
  status : String
  notes : Option String
deriving DecidableEq

/-- One row of the `trades_new` table (database.py `init_database`). -/
structure TradeRow where
  id : Nat
  trade_group_id : Option Nat
  stock_code : String
  stock_name : String
  action_type : Option String
  trade_type : String
  buy_date : String
  sell_date : Option String
  buy_price : ℚ
  sell_price : Option ℚ
  quantity : ℤ
  status : String
  notes : Option String
deriving DecidableEq

/-- models.py `Score`: the record handed to `Database.add_score`. -/
structure Score where
  trade_id : Option Nat
  date : String
  action_type : String
  score_type : String
  score : ℤ
  answer : Option String
  reflection : Option String
deriving DecidableEq

/-- One row of the `scores_new` table (database.py `init_database`). -/
structure ScoreRow where
  id : Nat
  trade_id : Option Nat
  date : String
  action_type : String
  score_type : String
  score : ℤ
  answer : Option String
  reflection : Option String
deriving DecidableEq

/-- The persistent store: both tables plus their AUTOINCREMENT counters. -/
structure DB where
  trades : List TradeRow
  scores : List ScoreRow
  next_trade_id : Nat
  next_score_id : Nat
deriving DecidableEq

/-- The store right after `init_database` on a fresh file: both tables empty,
both AUTOINCREMENT counters at 1. -/
def DB.empty : DB := ⟨[], [], 1, 1⟩

/-- WHERE clause `trade_group_id = ? AND trade_type = '买入'` (the buy row of
lot `g`), as used in `add_trade` and `update_trade_status`. -/
def is_buy_of (g : Nat) (r : TradeRow) : Bool :=
  r.trade_group_id == some g && r.trade_type == "买入"

/-- WHERE clause `trade_group_id = ? AND trade_type = '卖出'` (the sell rows
of lot `g`), as used in `get_sold_quantity`. -/
def is_sell_of (g : Nat) (r : TradeRow) : Bool :=
  r.trade_group_id == some g && r.trade_type == "卖出"

/-- `SELECT COALESCE(MAX(trade_group_id), 0)` over a list of rows: SQL `MAX`
ignores NULLs and defaults to 0 on an empty set. -/
def max_trade_group_id (l : List TradeRow) : Nat :=
  (l.filterMap TradeRow.trade_group_id).foldr max 0

/-- The row INSERTed by `Database.add_trade` (database.py lines 122-140),
with the resolved `trade_group_id` and the AUTOINCREMENT id. -/
def inserted_row (db : DB) (t : Trade) (gid : Option Nat) : TradeRow :=
  { id := db.next_trade_id
    trade_group_id := gid
    stock_code := t.stock_code
    stock_name := t.stock_name
    action_type := t.action_type
    trade_type := t.trade_type
    buy_date := t.buy_date
    sell_date := t.sell_date
    buy_price := t.buy_price
    sell_price := t.sell_price
    quantity := t.quantity
    status := t.status
    notes := t.notes }

/-- The UPDATE of `Database.add_trade` (database.py lines 146-150): on a
sell insert, set the buy row of the lot to `已结束` and mirror the sell
date/price onto it.  Applied to every row; non-matching rows unchanged. -/
def close_buy_rows (g : Nat) (sd : Option String) (sp : Option ℚ) (r : TradeRow) : TradeRow :=
  if is_buy_of g r then
    { r with status := "已结束", sell_date := sd, sell_price := sp }
  else r

/-- database.py `Database.add_trade` (lines 109-154).  A buy allocates a
fresh lot id `COALESCE(MAX(trade_group_id),0) + 1`; a sell keeps the id it
was given and, when that id is truthy (not None and not 0), closes the buy
row of the lot and mirrors the sell date/price.  Returns the new state and
`cursor.lastrowid`. -/
def add_trade (db : DB) (t : Trade) : DB × Nat :=
  let gid : Option Nat :=
    if t.trade_type = "买入" then some (max_trade_group_id db.trades + 1)
    else t.trade_group_id
  let trades₁ := db.trades ++ [inserted_row db t gid]
  let trades₂ :=
    if t.trade_type = "卖出" then
      match gid with
      | some g => if g ≠ 0 then trades₁.map (close_buy_rows g t.sell_date t.sell_price) else trades₁
      | none => trades₁
    else trades₁
  ({ db with trades := trades₂, next_trade_id := db.next_trade_id + 1 }, db.next_trade_id)

/-- database.py `Database.add_score` (lines 156-178). -/
def add_score (db : DB) (s : Score) : DB × Nat :=
  let row : ScoreRow :=
    { id := db.next_score_id
      trade_id := s.trade_id
      date := s.date
      action_type := s.action_type
      score_type := s.score_type
      score := s.score
      answer := s.answer
      reflection := s.reflection }
  ({ db with scores := db.scores ++ [row], next_score_id := db.next_score_id + 1 },
   db.next_score_id)

/-- Sum of sell-row quantities of lot `g` over a row list (the aggregate of
database.py `Database.get_sold_quantity`, lines 202-214). -/
def sold_sum (l : List TradeRow) (g : Nat) : ℤ :=
  ((l.filter (is_sell_of g)).map TradeRow.quantity).sum

/-- database.py `Database.get_sold_quantity` (lines 202-214):
`SELECT COALESCE(SUM(quantity), 0) ... WHERE trade_group_id = ? AND
trade_type = '卖出'`. -/
def get_sold_quantity (db : DB) (g : Nat) : ℤ :=
  sold_sum db.trades g

/-- database.py `Database.get_active_trades` (lines 190-200):
`WHERE status = '进行中' AND trade_type = '买入'` (the ORDER BY only affects
display order and is not modelled). -/
def get_active_trades (db : DB) : List TradeRow :=
  db.trades.filter (fun r => r.status == "进行中" && r.trade_type == "买入")

/-- The status-closing UPDATE of `Database.update_trade_status`
(database.py lines 370-374). -/
def close_status (g : Nat) (r : TradeRow) : TradeRow :=
  if is_buy_of g r then { r with status := "已结束" } else r

/-- database.py `Database.update_trade_status` (lines 349-381): fetch the
buy row of the lot (`fetchone` takes the first match in row order); if it
does not exist return False; if the sold total has reached the buy quantity,
set the buy row's status to `已结束` (success iff the UPDATE matched a row),
else leave the state alone and return True. -/
def update_trade_status (db : DB) (g : Nat) : DB × Bool :=
  match (db.trades.filter (is_buy_of g)).head? with
  | none => (db, false)
  | some buy_row =>
    let buy_quantity := buy_row.quantity
    let sold_quantity := get_sold_quantity db g
    if sold_quantity ≥ buy_quantity then
      ({ db with trades := db.trades.map (close_status g) },
       decide (0 < db.trades.countP (is_buy_of g)))
    else (db, true)

/-- database.py `Database.delete_trade` (lines 383-393): hard delete by id,
success iff a row was removed. -/
def delete_trade (db : DB) (i : Nat) : DB × Bool :=
  let remaining := db.trades.filter (fun r => r.id != i)
  ({ db with trades := remaining }, decide (remaining.length < db.trades.length))

/-- database.py `Database.delete_score` (lines 395-405): hard delete by id,
success iff a row was removed. -/
def delete_score (db : DB) (i : Nat) : DB × Bool :=
  let remaining := db.scores.filter (fun r => r.id != i)
  ({ db with scores := remaining }, decide (remaining.length < db.scores.length))

/-- The column list of the SELECT in `Database.get_scores_by_date_range`
(database.py lines 294-298): the result rows carry exactly these six
columns — in particular no `id`. -/
structure ScoreProj where
  date : String
  action_type : String
  score_type : String
  score : ℤ
  answer : Option String
  reflection : Option String
deriving DecidableEq

/-- Projection of a `scores_new` row onto the columns selected by
`get_scores_by_date_range`. -/
def ScoreRow.project (r : ScoreRow) : ScoreProj :=
  ⟨r.date, r.action_type, r.score_type, r.score, r.answer, r.reflection⟩

/-- Lexicographic `≤` on character lists: SQLite compares TEXT columns
bytewise under the default BINARY collation, which on the ASCII date
strings used by the app is exactly this comparison. -/
def chars_le : List Char → List Char → Bool
  | [], _ => true
  | _ :: _, [] => false
  | a :: as, b :: bs => if a < b then true else if b < a then false else chars_le as bs

/-- SQLite TEXT `<=`, applied to the `date` column. -/
def str_le (a b : String) : Bool := chars_le a.data b.data

/-- database.py `Database.get_scores_by_date_range` (lines 290-309):
`WHERE date >= ? AND date <= ?`, optionally `AND score_type = ?`; note the
SELECT omits `id` (the ORDER BY only affects row order). -/
def get_scores_by_date_range (db : DB) (start_date end_date : String)
    (score_type : Option String) : List ScoreProj :=
  (db.scores.filter (fun s =>
      str_le start_date s.date && str_le s.date end_date &&
      match score_type with
      | none => true
      | some t => s.score_type == t)).map ScoreRow.project

/-- pandas `Series.__getitem__` on a row returned by
`get_scores_by_date_range`: only the six selected columns exist; any other
key (in particular `id`) raises `KeyError`, modelled as `none`. -/
def ScoreProj.col (r : ScoreProj) (c : String) : Option PyVal :=
  if c = "date" then some (.vStr r.date)
  else if c = "action_type" then some (.vStr r.action_type)
  else if c = "score_type" then some (.vStr r.score_type)
  else if c = "score" then some (.vInt r.score)
  else if c = "answer" then some (match r.answer with | none => .vNone | some a => .vStr a)
  else if c = "reflection" then some (match r.reflection with | none => .vNone | some a => .vStr a)
  else none

/-! ### Pure scoring and classification functions -/

/-- Python `int(x)`: truncation toward zero. -/
def py_int (q : ℚ) : ℤ := if 0 ≤ q then ⌊q⌋ else ⌈q⌉

/-- models.py `ACTION_TYPES[...]["max_score"]` as read by
`calculate_objective_score` via `.get(action_type, {}).get("max_score", 20)`:
unknown categories default to 20. -/
def max_score_for (action_type : String) : ℤ :=
  if action_type = "涨了舍得卖" then 30
  else if action_type = "跌了敢买" then 30
  else if action_type = "涨了敢买" then 20
  else if action_type = "跌了舍得卖" then 20
  else 20

/-- score_calculator.py `calculate_objective_score` (lines 9-84): guard on
non-positive buy price, then a per-category piecewise-linear map of the
profit rate (in percent) to `[0, max_score]`, truncated to int, finally
clamped to `[0, 100]`.  The unused date arguments are dropped. -/
def calculate_objective_score (action_type : String) (buy_price sell_price : ℚ) : ℤ :=
  if buy_price ≤ 0 then 0
  else
    let profit_rate := (sell_price - buy_price) / buy_price * 100
    let max_score := max_score_for action_type
    let score : ℤ :=
      if action_type = "涨了舍得卖" then
        if profit_rate ≥ 5 then max_score
        else if profit_rate ≥ 0 then py_int (max_score * (profit_rate / 5))
        else 0
      else if action_type = "跌了敢买" then
        if profit_rate ≥ 10 then max_score
        else if profit_rate ≥ 0 then py_int (max_score * (profit_rate / 10))
        else 0
      else if action_type = "涨了敢买" then
        if profit_rate ≥ 8 then max_score
        else if profit_rate ≥ 0 then py_int (max_score * (profit_rate / 8))
        else 0
      else if action_type = "跌了舍得卖" then
        if profit_rate ≥ 0 then max_score
        else if profit_rate ≤ -5 then max_score
        else py_int (max_score * (1 + profit_rate / 5))
      else 0
    max 0 (min 100 score)

/-- action_detector.py `detect_sell_action_type` (lines 83-118): guard on
non-positive prices, then classify by the relative change with a ±1% band
and a raw-comparison tie-break.  The unused date arguments are dropped. -/
def detect_sell_action_type (buy_price sell_price : ℚ) : Option String :=
  if buy_price ≤ 0 ∨ sell_price ≤ 0 then none
  else
    let profit_rate := (sell_price - buy_price) / buy_price
    if profit_rate > 1/100 then some "涨了舍得卖"
    else if profit_rate < -(1/100) then some "跌了舍得卖"
    else if sell_price > buy_price then some "涨了舍得卖"
    else some "跌了舍得卖"

/-- action_detector.py `detect_buy_action_type`, classification core
(lines 45-76).  `future_closes` is the list of closes of the up to
`days_to_check` trading days strictly after the buy date, as produced by the
tushare retrieval and filtering; the retrieval itself (and its
exception-to-None handling, lines 30-43 and 78-80) is external I/O and is
represented by this list, with the empty list covering every absent-data
early return. -/
def detect_buy_action_type (future_closes : List ℚ) (buy_price : ℚ) : Option String :=
  match future_closes with
  | [] => none
  | c :: cs =>
    let avg_close := (c :: cs).sum / ((c :: cs).length : ℚ)
    let last_close := (c :: cs).getLast (List.cons_ne_nil c cs)
    if last_close > buy_price * (101/100) then some "涨了敢买"
    else if last_close < buy_price * (99/100) then some "跌了敢买"
    else if avg_close > buy_price then some "涨了敢买"
    else some "跌了敢买"

/-! ### Streamlit submit handlers (app.py) -/

/-- The three error kinds of the spec plus the uncaught Python exception:
each `st.error` early return of a handler maps to one of these, and the
pandas `KeyError` of the daily handler is `key_error`. -/
inductive AppError where
  | invalid_input : String → AppError
  | capacity_exceeded : AppError
  | not_found : AppError
  | key_error : String → AppError
deriving DecidableEq

/-- The score-saving loop shared (textually repeated) by the three submit
handlers: for every category with a positive score, `add_score` a record
built by `mk`. -/
def save_scores_loop (mk : String → ℤ → Score) (items : List (String × ℤ)) (db : DB) : DB :=
  items.foldl (fun d kv => if 0 < kv.2 then (add_score d (mk kv.1 kv.2)).1 else d) db

/-- The buy form state at the moment the `buy_submit` button handler runs
(app.py tab 2): widget values plus the already-resolved action type (the
auto-detect / manual-radio resolution, which depends on the external price
provider, is represented by its outcome). -/
structure BuyForm where
  stock_code : String
  stock_name : String
  buy_date : String
  buy_price : ℚ
  quantity : ℤ
  notes : Option String
  action_type : Option String
  subjective_scores : List (String × ℤ)
  answers : List (String × String)
  reflection : Option String
deriving DecidableEq

/-- The `Trade` record built by the `buy_submit` handler (app.py lines
473-482): a `买入` row with status `进行中`. -/
def buy_trade_of (f : BuyForm) (action_type : String) : Trade :=
  { trade_group_id := none
    stock_code := f.stock_code
    stock_name := if f.stock_name = "" then f.stock_code else f.stock_name
    action_type := some action_type
    trade_type := "买入"
    buy_date := f.buy_date
    sell_date := none
    buy_price := f.buy_price
    sell_price := none
    quantity := f.quantity
    status := "进行中"
    notes := f.notes }

/-- app.py `buy_submit` button handler (tab 2): validation guards, then
insert the buy trade with status `进行中` and save the positive subjective
scores attached to the new trade id. -/
def buy_submit (db : DB) (f : BuyForm) : Except AppError DB :=
  if f.stock_code = "" then .error (.invalid_input "请填写股票代码")
  else
    match f.action_type with
    | none => .error (.invalid_input "请先判断或选择动作类型")
    | some action_type =>
      if f.buy_price ≤ 0 then .error (.invalid_input "请输入买入价格")
      else if f.quantity ≤ 0 then .error (.invalid_input "请输入买入数量")
      else
        let res := add_trade db (buy_trade_of f action_type)
        let db₁ := save_scores_loop
          (fun k s =>
            { trade_id := some res.2
              date := f.buy_date
              action_type := k
              score_type := "主观评分"
              score := s
              answer := f.answers.lookup k
              reflection := f.reflection })
          f.subjective_scores res.1
        .ok db₁

/-- The sell form state at the moment the `sell_submit` button handler runs
(app.py tab 3): the id of the active trade chosen in the selectbox, the
widget values, and `st.session_state.detected_sell_action` if present. -/
structure SellForm where
  selected_trade_id : Nat
  sell_date : String
  sell_quantity : ℤ
  sell_price : ℚ
  subjective_scores : List (String × ℤ)
  answers : List (String × String)
  reflection : Option String
  detected_sell_action : Option String
deriving DecidableEq

/-- The `Trade` record built by the `sell_submit` handler (app.py lines
686-699): a `卖出` row for the lot of the selected buy, itself carrying
status `已结束`. -/
def sell_trade_of (selected_trade : TradeRow) (trade_group_id : Nat) (f : SellForm) : Trade :=
  { trade_group_id := some trade_group_id
    stock_code := selected_trade.stock_code
    stock_name := selected_trade.stock_name
    action_type := none
    trade_type := "卖出"
    buy_date := selected_trade.buy_date
    sell_date := some f.sell_date
    buy_price := selected_trade.buy_price
    sell_price := some f.sell_price
    quantity := f.sell_quantity
    status := "已结束"
    notes := none }

/-- app.py `sell_submit` button handler (tab 3): look up the selected trade
among the active trades, compute the remaining quantity, run the validation
guards (the capacity guard `sell_quantity > remaining_quantity` rejects the
oversized sell), then insert the sell trade, recompute the lot status,
save the positive subjective scores and the computed objective score, all
attached to the new sell trade id. -/
def sell_submit (db : DB) (f : SellForm) : Except AppError DB :=
  match (get_active_trades db).find? (fun r => r.id == f.selected_trade_id) with
  | none => .error .not_found
  | some selected_trade =>
    let trade_group_id := selected_trade.trade_group_id.getD selected_trade.id
    let sold_quantity := get_sold_quantity db trade_group_id
    let remaining_quantity := selected_trade.quantity - sold_quantity
    if f.sell_price ≤ 0 then .error (.invalid_input "请输入卖出价格")
    else if f.sell_quantity ≤ 0 then .error (.invalid_input "请输入卖出数量")
    else if f.sell_quantity > remaining_quantity then .error .capacity_exceeded
    else
      let res := add_trade db (sell_trade_of selected_trade trade_group_id f)
      let db₂ := (update_trade_status res.1 trade_group_id).1
      let sell_action_type :=
        match f.detected_sell_action with
        | none => detect_sell_action_type selected_trade.buy_price f.sell_price
        | some s =>
          if s = "" then detect_sell_action_type selected_trade.buy_price f.sell_price
          else some s
      let db₃ := save_scores_loop
        (fun k s =>
          { trade_id := some res.2
            date := f.sell_date
            action_type := k
            score_type := "主观评分"
            score := s
            answer := f.answers.lookup k
            reflection := f.reflection })
        f.subjective_scores db₂
      let db₄ :=
        match sell_action_type with
        | some a =>
          (add_score db₃
            { trade_id := some res.2
              date := f.sell_date
              action_type := a
              score_type := "客观评分"
              score := calculate_objective_score a selected_trade.buy_price f.sell_price
              answer := none
              reflection := none }).1
        | none => db₃
      .ok db₄

/-- The daily self-check form state at the moment the `daily_submit` button
handler runs (app.py tab 1). -/
structure DailyForm where
  selected_date : String
  subjective_scores : List (String × ℤ)
  answers : List (String × String)
  hardest_action : String
deriving DecidableEq

/-- app.py `calculate_total_score` (line 150): sum of the per-category
subjective scores. -/
def calculate_total_score (scores : List (String × ℤ)) : ℤ :=
  (scores.map Prod.snd).sum

/-- app.py `save_daily_scores` (lines 268-289): save every positive
subjective score for the selected date, with no attached trade. -/
def save_daily_scores (db : DB) (f : DailyForm) : DB :=
  save_scores_loop
    (fun k s =>
      { trade_id := none
        date := f.selected_date
        action_type := k
        score_type := "主观评分"
        score := s
        answer := f.answers.lookup k
        reflection := if f.hardest_action ≠ "无" then some ("最难行动: " ++ f.hardest_action) else none })
    f.subjective_scores db

/-- The delete loop of the `daily_submit` handler (app.py lines 301-303):
`for _, old_score in today_scores.iterrows():
delete_score(old_score['id'])`.  Reading column `id` of a row raises
`KeyError` when the column was not selected. -/
def delete_today_scores (db : DB) : List ScoreProj → Except AppError DB
  | [] => .ok db
  | r :: rest =>
    match r.col "id" with
    | some (.vInt i) => delete_today_scores (delete_score db i.toNat).1 rest
    | _ => .error (.key_error "id")

/-- app.py `daily_submit` button handler (lines 291-306): warn and change
nothing when the total is 0; otherwise fetch today's subjective entries,
delete them if any exist (the loop crashing propagates), then save the new
entries. -/
def daily_submit (db : DB) (f : DailyForm) : Except AppError DB :=
  if calculate_total_score f.subjective_scores = 0 then .ok db
  else
    let today_scores :=
      get_scores_by_date_range db f.selected_date f.selected_date (some "主观评分")
    if today_scores.isEmpty then .ok (save_daily_scores db f)
    else
      match delete_today_scores db today_scores with
      | .error e => .error e
      | .ok db₁ => .ok (save_daily_scores db₁ f)

/-! ### The operation language

Every mutation of the store goes through one of the three submit handlers
or the two hard deletes (spec §4.3); a handler whose run ends in an error
(`st.error` or an uncaught exception) leaves the store unchanged. -/

/-- One user action against the ledger. -/
inductive Op where
  | buy : BuyForm → Op
  | sell : SellForm → Op
  | daily : DailyForm → Op
  | del_trade : Nat → Op
  | del_score : Nat → Op

/-- Apply one user action; a failed handler leaves the store unchanged. -/
def apply_op (db : DB) : Op → DB
  | .buy f => match buy_submit db f with | .ok d => d | .error _ => db
  | .sell f => match sell_submit db f with | .ok d => d | .error _ => db
  | .daily f => match daily_submit db f with | .ok d => d | .error _ => db
  | .del_trade i => (delete_trade db i).1
  | .del_score i => (delete_score db i).1

/-- The store reached from a fresh database by a sequence of user actions. -/
def reach (ops : List Op) : DB :=
  ops.foldl apply_op DB.empty

/-- The buy row with a given row id (`find?` takes the first match in row
order, as SQLite does for a scan without ORDER BY). -/
def row_by_id (db : DB) (i : Nat) : Option TradeRow :=
  db.trades.find? (fun r => r.id == i)

/-! ### Concrete scenarios

Closed inputs used to evaluate the embedded program: a 1000-share buy of
stock 600000 at price 10, sells of 400 / 1000 / 1001 shares at price 11,
a follow-up buy, and daily self-checks. -/

/-- Buy submission: 1000 shares of 600000 at 10. -/
def buy_form_a : BuyForm :=
  { stock_code := "600000", stock_name := "浦发银行", buy_date := "2024-01-02",
    buy_price := 10, quantity := 1000, notes := none,
    action_type := some "跌了敢买", subjective_scores := [], answers := [],
    reflection := none }

/-- Partial sell: 400 of the 1000 shares of lot 1 at 11. -/
def sell_form_partial : SellForm :=
  { selected_trade_id := 1, sell_date := "2024-01-10", sell_quantity := 400,
    sell_price := 11, subjective_scores := [], answers := [], reflection := none,
    detected_sell_action := none }

/-- Full sell: all 1000 shares of lot 1 at 11. -/
def sell_form_full : SellForm :=
  { selected_trade_id := 1, sell_date := "2024-01-10", sell_quantity := 1000,
    sell_price := 11, subjective_scores := [], answers := [], reflection := none,
    detected_sell_action := none }

/-- Oversized sell: 1001 of the 1000 shares of lot 1. -/
def sell_form_oversized : SellForm :=
  { selected_trade_id := 1, sell_date := "2024-01-10", sell_quantity := 1001,
    sell_price := 11, subjective_scores := [], answers := [], reflection := none,
    detected_sell_action := none }

/-- A second buy record handed to `add_trade` after lot 1 is sold out. -/
def trade_buy_b : Trade :=
  { trade_group_id := none, stock_code := "000001", stock_name := "平安银行",
    action_type := some "涨了敢买", trade_type := "买入", buy_date := "2024-02-01",
    sell_date := none, buy_price := 5, sell_price := none, quantity := 100,
    status := "进行中", notes := none }

/-- The buy row of lot 1 as stored right after `buy_form_a` is submitted. -/
def buy_row_a : TradeRow :=
  { id := 1, trade_group_id := some 1, stock_code := "600000", stock_name := "浦发银行",
    action_type := some "跌了敢买", trade_type := "买入", buy_date := "2024-01-02",
    sell_date := none, buy_price := 10, sell_price := none, quantity := 1000,
    status := "进行中", notes := none }

/-- The buy row of lot 1 after the full sell: closed, sell data mirrored. -/
def buy_row_closed : TradeRow :=
  { id := 1, trade_group_id := some 1, stock_code := "600000", stock_name := "浦发银行",
    action_type := some "跌了敢买", trade_type := "买入", buy_date := "2024-01-02",
    sell_date := some "2024-01-10", buy_price := 10, sell_price := some 11,
    quantity := 1000, status := "已结束", notes := none }

/-- A daily self-check for 2024-05-06 scoring one category. -/
def daily_form_a : DailyForm :=
  { selected_date := "2024-05-06", subjective_scores := [("涨了舍得卖", 30)],
    answers := [("涨了舍得卖", "按计划减仓")], hardest_action := "无" }

/-- A buy submission on 2024-05-06 that also saves a trade-attached
subjective score for that date. -/
def buy_form_scored : BuyForm :=
  { stock_code := "600000", stock_name := "浦发银行", buy_date := "2024-05-06",
    buy_price := 10, quantity := 1000, notes := none,
    action_type := some "跌了敢买", subjective_scores := [("跌了敢买", 30)],
    answers := [], reflection := none }

/-- The store after submitting `buy_form_scored` on a fresh database. -/
def db_after_scored_buy : DB := apply_op DB.empty (Op.buy buy_form_scored)

/-! ### Helper lemmas -/

deriving instance DecidableEq for Except

/-- Row transformations performed by the UPDATE statements: they keep the
identity, lot id, direction and quantity of every row, and can change a
status only to `已结束`. -/
def tame (f : TradeRow → TradeRow) : Prop :=
  ∀ r, (f r).id = r.id ∧ (f r).trade_group_id = r.trade_group_id ∧
    (f r).trade_type = r.trade_type ∧ (f r).quantity = r.quantity ∧
    ((f r).status = r.status ∨ (f r).status = "已结束")

theorem tame_id : tame id := by
  intro r
  simp

theorem tame_close_buy_rows (g : Nat) (sd : Option String) (sp : Option ℚ) :
    tame (close_buy_rows g sd sp) := by
  intro r
  unfold close_buy_rows
  split
  · simp
  · simp

theorem tame_close_status (g : Nat) : tame (close_status g) := by
  intro r
  unfold close_status
  split
  · simp
  · simp

theorem is_sell_of_tame {f : TradeRow → TradeRow} (hf : tame f) (g : Nat) (r : TradeRow) :
    is_sell_of g (f r) = is_sell_of g r := by
  obtain ⟨-, h₂, h₃, -, -⟩ := hf r
  unfold is_sell_of
  rw [h₂, h₃]

theorem is_buy_of_tame {f : TradeRow → TradeRow} (hf : tame f) (g : Nat) (r : TradeRow) :
    is_buy_of g (f r) = is_buy_of g r := by
  obtain ⟨-, h₂, h₃, -, -⟩ := hf r
  unfold is_buy_of
  rw [h₂, h₃]

theorem sold_sum_nil (g : Nat) : sold_sum [] g = 0 := rfl

theorem sold_sum_cons (r : TradeRow) (l : List TradeRow) (g : Nat) :
    sold_sum (r :: l) g = (if is_sell_of g r then r.quantity else 0) + sold_sum l g := by
  unfold sold_sum
  rw [List.filter_cons]
  split
  · simp
  · simp

theorem sold_sum_append (l₁ l₂ : List TradeRow) (g : Nat) :
    sold_sum (l₁ ++ l₂) g = sold_sum l₁ g + sold_sum l₂ g := by
  unfold sold_sum
  rw [List.filter_append, List.map_append, List.sum_append]

theorem sold_sum_map_tame {f : TradeRow → TradeRow} (hf : tame f) (l : List TradeRow) (g : Nat) :
    sold_sum (l.map f) g = sold_sum l g := by
  induction l with
  | nil => rfl
  | cons r l ih =>
    rw [List.map_cons, sold_sum_cons, sold_sum_cons, ih, is_sell_of_tame hf,
      (hf r).2.2.2.1]

theorem countP_buy_map_tame {f : TradeRow → TradeRow} (hf : tame f) (l : List TradeRow) (g : Nat) :
    (l.map f).countP (is_buy_of g) = l.countP (is_buy_of g) := by
  induction l with
  | nil => rfl
  | cons r l ih =>
    rw [List.map_cons, List.countP_cons, List.countP_cons, ih, is_buy_of_tame hf]

theorem le_foldr_max (a : Nat) (l : List Nat) (h : a ∈ l) : a ≤ l.foldr max 0 := by
  induction l with
  | nil => cases h
  | cons b l ih =>
    rcases List.mem_cons.mp h with h' | h'
    · subst h'
      exact Nat.le_max_left _ _
    · exact Nat.le_trans (ih h') (Nat.le_max_right _ _)

theorem tgid_le_max {l : List TradeRow} {r : TradeRow} {g : Nat}
    (hr : r ∈ l) (h : r.trade_group_id = some g) : g ≤ max_trade_group_id l := by
  apply le_foldr_max
  exact List.mem_filterMap.mpr ⟨r, hr, h⟩

theorem countP_le_one_eq {α : Type} (p : α → Bool) (l : List α) (h : l.countP p ≤ 1)
    (a b : α) (ha : a ∈ l) (hb : b ∈ l) (hpa : p a = true) (hpb : p b = true) : a = b := by
  induction l with
  | nil => cases ha
  | cons x xs ih =>
    rw [List.countP_cons] at h
    rcases List.mem_cons.mp ha with ha' | ha' <;> rcases List.mem_cons.mp hb with hb' | hb'
    · rw [ha', hb']
    · subst ha'
      rw [if_pos hpa] at h
      have h0 : xs.countP p = 0 := by omega
      have := (List.countP_eq_zero.mp h0) b hb'
      exact absurd hpb this
    · subst hb'
      rw [if_pos hpb] at h
      have h0 : xs.countP p = 0 := by omega
      have := (List.countP_eq_zero.mp h0) a ha'
      exact absurd hpa this
    · exact ih (by omega) ha' hb'

theorem find?_append_left {α : Type} {p : α → Bool} {l₁ : List α} {r : α}
    (l₂ : List α) (h : l₁.find? p = some r) : (l₁ ++ l₂).find? p = some r := by
  induction l₁ with
  | nil => cases h
  | cons x xs ih =>
    by_cases hx : p x
    · rw [List.find?_cons_of_pos _ hx] at h
      rw [List.cons_append, List.find?_cons_of_pos _ hx]
      exact h
    · rw [List.find?_cons_of_neg _ hx] at h
      rw [List.cons_append, List.find?_cons_of_neg _ hx]
      exact ih h

theorem find?_map_pres {α : Type} {p : α → Bool} {f : α → α}
    (hp : ∀ a, p (f a) = p a) (l : List α) : (l.map f).find? p = (l.find? p).map f := by
  induction l with
  | nil => rfl
  | cons x xs ih =>
    rw [List.map_cons, List.find?_cons, List.find?_cons, hp x]
    split
    · simp
    · exact ih

theorem find?_filter_of_imp {α : Type} {p q : α → Bool}
    (hpq : ∀ a, p a = true → q a = true) (l : List α) :
    (l.filter q).find? p = l.find? p := by
  induction l with
  | nil => rfl
  | cons x xs ih =>
    rw [List.filter_cons]
    split
    · rw [List.find?_cons, List.find?_cons]
      split
      · rfl
      · exact ih
    · rename_i hqx
      rw [List.find?_cons]
      split
      · rename_i hpx
        exact absurd (hpq x hpx) (by simpa using hqx)
      · exact ih

theorem find?_filter_of_excl {α : Type} {p q : α → Bool}
    (hpq : ∀ a, p a = true → q a = false) (l : List α) :
    (l.filter q).find? p = none := by
  induction l with
  | nil => rfl
  | cons x xs ih =>
    rw [List.filter_cons]
    split
    · rename_i hqx
      rw [List.find?_cons]
      split
      · rename_i hpx
        rw [hpq x hpx] at hqx
        cases hqx
      · exact ih
    · exact ih

/-! ### Characterizations of the ledger operations -/

theorem add_score_trades (db : DB) (s : Score) : (add_score db s).1.trades = db.trades := rfl

theorem save_scores_loop_trades (mk : String → ℤ → Score) (items : List (String × ℤ)) :
    ∀ db : DB, (save_scores_loop mk items db).trades = db.trades := by
  induction items with
  | nil =>
    intro db
    rfl
  | cons kv rest ih =>
    intro db
    unfold save_scores_loop at ih ⊢
    rw [List.foldl_cons, ih]
    split <;> rfl

theorem add_trade_buy (db : DB) (t : Trade) (h : t.trade_type = "买入") :
    add_trade db t =
      ({ db with
          trades := db.trades ++
            [inserted_row db t (some (max_trade_group_id db.trades + 1))],
          next_trade_id := db.next_trade_id + 1 }, db.next_trade_id) := by
  simp only [add_trade, h, String.reduceEq, reduceIte]

theorem add_trade_sell (db : DB) (t : Trade) (h : t.trade_type = "卖出") :
    ∃ f, tame f ∧
      (add_trade db t).1.trades = (db.trades ++ [inserted_row db t t.trade_group_id]).map f ∧
      (add_trade db t).1.scores = db.scores ∧
      (add_trade db t).1.next_trade_id = db.next_trade_id + 1 ∧
      (add_trade db t).1.next_score_id = db.next_score_id ∧
      (add_trade db t).2 = db.next_trade_id := by
  cases htg : t.trade_group_id with
  | none =>
    refine ⟨id, tame_id, ?_, ?_, ?_, ?_, ?_⟩ <;>
      simp [add_trade, h, htg]
  | some g =>
    by_cases hg : g = 0
    · refine ⟨id, tame_id, ?_, ?_, ?_, ?_, ?_⟩ <;>
        simp [add_trade, h, htg, hg]
    · refine ⟨close_buy_rows g t.sell_date t.sell_price, tame_close_buy_rows g _ _, ?_, ?_, ?_, ?_, ?_⟩ <;>
        simp [add_trade, h, htg, hg]

theorem update_trade_status_spec (db : DB) (g : Nat) :
    ∃ f, tame f ∧
      (update_trade_status db g).1.trades = db.trades.map f ∧
      (update_trade_status db g).1.scores = db.scores ∧
      (update_trade_status db g).1.next_trade_id = db.next_trade_id ∧
      (update_trade_status db g).1.next_score_id = db.next_score_id := by
  cases hh : (db.trades.filter (is_buy_of g)).head? with
  | none =>
    refine ⟨id, tame_id, ?_, ?_, ?_, ?_⟩ <;>
      simp [update_trade_status, hh]
  | some b =>
    by_cases hs : get_sold_quantity db g ≥ b.quantity
    · refine ⟨close_status g, tame_close_status g, ?_, ?_, ?_, ?_⟩ <;>
        simp [update_trade_status, hh, hs]
    · refine ⟨id, tame_id, ?_, ?_, ?_, ?_⟩ <;>
        simp [update_trade_status, hh, hs]

theorem buy_submit_ok_spec (db : DB) (f : BuyForm) (db' : DB) (h : buy_submit db f = .ok db') :
    ∃ r : TradeRow, r.trade_type = "买入" ∧
      r.trade_group_id = some (max_trade_group_id db.trades + 1) ∧
      r.quantity = f.quantity ∧ 0 < f.quantity ∧ r.status = "进行中" ∧
      r.id = db.next_trade_id ∧ db'.trades = db.trades ++ [r] := by
  cases hat : f.action_type with
  | none =>
    simp only [buy_submit, hat] at h
    split at h
    · exact Except.noConfusion h
    · exact Except.noConfusion h
  | some a =>
    simp only [buy_submit, hat] at h
    split at h
    · exact Except.noConfusion h
    · by_cases hprice : f.buy_price ≤ 0
      · rw [if_pos hprice] at h
        exact Except.noConfusion h
      · rw [if_neg hprice] at h
        by_cases hqty : f.quantity ≤ 0
        · rw [if_pos hqty] at h
          exact Except.noConfusion h
        · rw [if_neg hqty] at h
          rw [Except.ok.injEq] at h
          subst h
          refine ⟨inserted_row db (buy_trade_of f a) (some (max_trade_group_id db.trades + 1)),
            rfl, rfl, rfl, by omega, rfl, rfl, ?_⟩
          rw [save_scores_loop_trades, add_trade_buy db (buy_trade_of f a) rfl]

theorem sell_submit_ok_spec (db : DB) (f : SellForm) (db' : DB) (h : sell_submit db f = .ok db') :
    ∃ (b : TradeRow) (f₁ f₂ : TradeRow → TradeRow),
      (get_active_trades db).find? (fun r => r.id == f.selected_trade_id) = some b ∧
      0 < f.sell_quantity ∧
      f.sell_quantity ≤ b.quantity - sold_sum db.trades (b.trade_group_id.getD b.id) ∧
      tame f₁ ∧ tame f₂ ∧
      db'.trades =
        ((db.trades ++
            [inserted_row db (sell_trade_of b (b.trade_group_id.getD b.id) f)
              (some (b.trade_group_id.getD b.id))]).map f₁).map f₂ := by
  cases hfind : (get_active_trades db).find? (fun r => r.id == f.selected_trade_id) with
  | none =>
    simp only [sell_submit, hfind] at h
    exact Except.noConfusion h
  | some b =>
    simp only [sell_submit, hfind] at h
    by_cases hprice : f.sell_price ≤ 0
    · rw [if_pos hprice] at h
      exact Except.noConfusion h
    · rw [if_neg hprice] at h
      by_cases hqty : f.sell_quantity ≤ 0
      · rw [if_pos hqty] at h
        exact Except.noConfusion h
      · rw [if_neg hqty] at h
        by_cases hcap :
            f.sell_quantity > b.quantity - get_sold_quantity db (b.trade_group_id.getD b.id)
        · rw [if_pos hcap] at h
          exact Except.noConfusion h
        · rw [if_neg hcap] at h
          have hcap' :
              ¬ f.sell_quantity > b.quantity - sold_sum db.trades (b.trade_group_id.getD b.id) :=
            hcap
          obtain ⟨f₁, hf₁, htr₁, -, -, -, -⟩ :=
            add_trade_sell db (sell_trade_of b (b.trade_group_id.getD b.id) f) rfl
          obtain ⟨f₂, hf₂, htr₂, -, -, -⟩ :=
            update_trade_status_spec
              (add_trade db (sell_trade_of b (b.trade_group_id.getD b.id) f)).1
              (b.trade_group_id.getD b.id)
          refine ⟨b, f₁, f₂, rfl, by omega, by omega, hf₁, hf₂, ?_⟩
          have hdb' : db'.trades =
              ((update_trade_status
                  (add_trade db (sell_trade_of b (b.trade_group_id.getD b.id) f)).1
                  (b.trade_group_id.getD b.id)).1).trades := by
            split at h
            · rw [Except.ok.injEq] at h
              subst h
              rw [add_score_trades, save_scores_loop_trades]
            · rw [Except.ok.injEq] at h
              subst h
              rw [save_scores_loop_trades]
          rw [hdb', htr₂, htr₁]
          rfl

theorem col_id_none (r : ScoreProj) : r.col "id" = none := by
  simp [ScoreProj.col]

theorem delete_today_scores_cons (db : DB) (r : ScoreProj) (rest : List ScoreProj) :
    delete_today_scores db (r :: rest) = .error (.key_error "id") := by
  unfold delete_today_scores
  rw [col_id_none]

theorem daily_submit_trades (db : DB) (f : DailyForm) (db' : DB)
    (h : daily_submit db f = .ok db') : db'.trades = db.trades := by
  simp only [daily_submit] at h
  split at h
  · rw [Except.ok.injEq] at h
    rw [← h]
  · split at h
    · rw [Except.ok.injEq] at h
      subst h
      exact save_scores_loop_trades _ _ db
    · rename_i hne
      split at h
      · exact Except.noConfusion h
      · rename_i db₁ hdel
        cases hrows : get_scores_by_date_range db f.selected_date f.selected_date (some "主观评分") with
        | nil =>
          rw [hrows] at hne
          simp at hne
        | cons r rest =>
          rw [hrows, delete_today_scores_cons] at hdel
          exact Except.noConfusion hdel

/-! ### The ledger invariant -/

theorem is_sell_of_iff (g : Nat) (r : TradeRow) :
    is_sell_of g r = true ↔ r.trade_group_id = some g ∧ r.trade_type = "卖出" := by
  simp [is_sell_of]

theorem is_buy_of_iff (g : Nat) (r : TradeRow) :
    is_buy_of g r = true ↔ r.trade_group_id = some g ∧ r.trade_type = "买入" := by
  simp [is_buy_of]

theorem mem_active (db : DB) (b : TradeRow) (h : b ∈ get_active_trades db) :
    b ∈ db.trades ∧ b.trade_type = "买入" := by
  unfold get_active_trades at h
  have h' := List.mem_filter.mp h
  refine ⟨h'.1, ?_⟩
  have := h'.2
  simp at this
  exact this.2

theorem sold_sum_sublist {l₁ l₂ : List TradeRow} (h : l₁.Sublist l₂) (g : Nat)
    (hq : ∀ r ∈ l₂, r.trade_type = "卖出" → 0 ≤ r.quantity) :
    sold_sum l₁ g ≤ sold_sum l₂ g := by
  induction h with
  | slnil => exact le_refl 0
  | cons a _ ih =>
    rw [sold_sum_cons]
    have hge : 0 ≤ (if is_sell_of g a then a.quantity else 0) := by
      split
      · rename_i ha
        exact hq a (List.mem_cons_self _ _) ((is_sell_of_iff g a).mp ha).2
      · exact le_refl 0
    have hrec := ih (fun r hr ht => hq r (List.mem_cons_of_mem a hr) ht)
    omega
  | cons₂ a _ ih =>
    rw [sold_sum_cons, sold_sum_cons]
    have hrec := ih (fun r hr ht => hq r (List.mem_cons_of_mem a hr) ht)
    omega

theorem tame_fields {f₁ f₂ : TradeRow → TradeRow} (hf₁ : tame f₁) (hf₂ : tame f₂)
    (x : TradeRow) :
    (f₂ (f₁ x)).trade_group_id = x.trade_group_id ∧
    (f₂ (f₁ x)).trade_type = x.trade_type ∧
    (f₂ (f₁ x)).quantity = x.quantity := by
  obtain ⟨-, h₂, h₃, h₄, -⟩ := hf₁ x
  obtain ⟨-, g₂, g₃, g₄, -⟩ := hf₂ (f₁ x)
  exact ⟨g₂.trans h₂, g₃.trans h₃, g₄.trans h₄⟩

/-- The inductive invariant of the ledger: every sell row has a nonnegative
quantity, every buy row carries a lot id, every lot has at most one buy row,
and the sold total of every lot is bounded by its buy quantity. -/
def Inv (db : DB) : Prop :=
  (∀ r ∈ db.trades, r.trade_type = "卖出" → 0 ≤ r.quantity) ∧
  (∀ r ∈ db.trades, r.trade_type = "买入" → r.trade_group_id.isSome = true) ∧
  (∀ g : Nat, db.trades.countP (is_buy_of g) ≤ 1) ∧
  (∀ r ∈ db.trades, r.trade_type = "买入" → ∀ g, r.trade_group_id = some g →
    sold_sum db.trades g ≤ r.quantity)

theorem inv_of_trades_eq {db db' : DB} (h : db'.trades = db.trades) (hi : Inv db) : Inv db' := by
  unfold Inv at hi ⊢
  rw [h]
  exact hi

theorem inv_empty : Inv DB.empty := by
  refine ⟨?_, ?_, ?_, ?_⟩ <;> simp [DB.empty]

theorem inv_buy (db : DB) (f : BuyForm) (hi : Inv db) : Inv (apply_op db (.buy f)) := by
  rcases hb : buy_submit db f with e | db'
  · have happ : apply_op db (.buy f) = db := by simp [apply_op, hb]
    rw [happ]
    exact hi
  · have happ : apply_op db (.buy f) = db' := by simp [apply_op, hb]
    rw [happ]
    obtain ⟨r, hty, hgid, hqty, hpos, -, -, htr⟩ := buy_submit_ok_spec db f db' hb
    obtain ⟨h1, h2, h3, h4⟩ := hi
    have hsold0 : sold_sum [r] = fun _ => (0 : ℤ) := by
      funext g
      rw [sold_sum_cons, sold_sum_nil]
      have : is_sell_of g r = false := by
        unfold is_sell_of
        rw [hty]
        simp
      rw [this]
      simp
    refine ⟨?_, ?_, ?_, ?_⟩
    · intro x hx hxty
      rw [htr] at hx
      rcases List.mem_append.mp hx with hx | hx
      · exact h1 x hx hxty
      · rw [List.mem_singleton.mp hx, hty] at hxty
        simp at hxty
    · intro x hx hxty
      rw [htr] at hx
      rcases List.mem_append.mp hx with hx | hx
      · exact h2 x hx hxty
      · rw [List.mem_singleton.mp hx, hgid]
        rfl
    · intro g
      rw [htr, List.countP_append]
      by_cases hg : g = max_trade_group_id db.trades + 1
      · subst hg
        have hz : db.trades.countP (is_buy_of (max_trade_group_id db.trades + 1)) = 0 := by
          rw [List.countP_eq_zero]
          intro a ha hpa
          have hga := ((is_buy_of_iff _ a).mp hpa).1
          have := tgid_le_max ha hga
          omega
        have hone : List.countP (is_buy_of (max_trade_group_id db.trades + 1)) [r] ≤ 1 := by
          rw [List.countP_cons, List.countP_nil]
          split <;> omega
        omega
      · have hz : List.countP (is_buy_of g) [r] = 0 := by
          rw [List.countP_eq_zero]
          intro a ha hpa
          rw [List.mem_singleton.mp ha] at hpa
          have hga := ((is_buy_of_iff g r).mp hpa).1
          rw [hgid] at hga
          exact hg (Option.some_injective _ hga).symm
        have := h3 g
        omega
    · intro x hx hxty g hxg
      rw [htr] at hx
      have hsold : sold_sum (db.trades ++ [r]) g = sold_sum db.trades g := by
        rw [sold_sum_append]
        have : sold_sum [r] g = 0 := by rw [hsold0]
        omega
      rw [htr, hsold]
      rcases List.mem_append.mp hx with hx | hx
      · exact h4 x hx hxty g hxg
      · rw [List.mem_singleton.mp hx] at hxg ⊢
        rw [hgid] at hxg
        have hg := (Option.some_injective _ hxg)
        have hz : sold_sum db.trades g = 0 := by
          unfold sold_sum
          have : db.trades.filter (is_sell_of g) = [] := by
            rw [List.filter_eq_nil_iff]
            intro a ha hpa
            have hga := ((is_sell_of_iff g a).mp hpa).1
            have := tgid_le_max ha hga
            omega
          rw [this]
          rfl
        rw [hz, hqty]
        omega

theorem inv_sell (db : DB) (f : SellForm) (hi : Inv db) : Inv (apply_op db (.sell f)) := by
  rcases hs : sell_submit db f with e | db'
  · have happ : apply_op db (.sell f) = db := by simp [apply_op, hs]
    rw [happ]
    exact hi
  · have happ : apply_op db (.sell f) = db' := by simp [apply_op, hs]
    rw [happ]
    obtain ⟨b, f₁, f₂, hfind, hqpos, hcap, hf₁, hf₂, htr⟩ := sell_submit_ok_spec db f db' hs
    obtain ⟨h1, h2, h3, h4⟩ := hi
    obtain ⟨hbmem, hbty⟩ := mem_active db b (List.mem_of_find?_eq_some hfind)
    obtain ⟨gb, hgb⟩ := Option.isSome_iff_exists.mp (h2 b hbmem hbty)
    have hgD : b.trade_group_id.getD b.id = gb := by rw [hgb]; rfl
    rw [hgD] at hcap htr
    have hsty : (inserted_row db (sell_trade_of b gb f) (some gb)).trade_type = "卖出" := rfl
    have hsgid : (inserted_row db (sell_trade_of b gb f) (some gb)).trade_group_id = some gb := rfl
    have hsqty : (inserted_row db (sell_trade_of b gb f) (some gb)).quantity = f.sell_quantity := rfl
    have hsold : ∀ g : Nat,
        sold_sum db'.trades g =
          sold_sum db.trades g +
            (if is_sell_of g (inserted_row db (sell_trade_of b gb f) (some gb)) then
              f.sell_quantity else 0) := by
      intro g
      rw [htr, sold_sum_map_tame hf₂, sold_sum_map_tame hf₁, sold_sum_append, sold_sum_cons,
        sold_sum_nil, hsqty]
      omega
    have hmem : ∀ x ∈ db'.trades, ∃ x₀,
        (x₀ ∈ db.trades ∨ x₀ = inserted_row db (sell_trade_of b gb f) (some gb)) ∧
        x = f₂ (f₁ x₀) := by
      intro x hx
      rw [htr] at hx
      obtain ⟨y, hy, hxy⟩ := List.mem_map.mp hx
      obtain ⟨x₀, hx₀, hyx₀⟩ := List.mem_map.mp hy
      refine ⟨x₀, ?_, by rw [← hxy, ← hyx₀]⟩
      rcases List.mem_append.mp hx₀ with h' | h'
      · exact Or.inl h'
      · exact Or.inr (List.mem_singleton.mp h')
    refine ⟨?_, ?_, ?_, ?_⟩
    · intro x hx hxty
      obtain ⟨x₀, hx₀, rfl⟩ := hmem x hx
      obtain ⟨hT2, hT3, hT4⟩ := tame_fields hf₁ hf₂ x₀
      rw [hT3] at hxty
      rw [hT4]
      rcases hx₀ with h' | h'
      · exact h1 x₀ h' hxty
      · rw [h', hsqty]
        omega
    · intro x hx hxty
      obtain ⟨x₀, hx₀, rfl⟩ := hmem x hx
      obtain ⟨hT2, hT3, hT4⟩ := tame_fields hf₁ hf₂ x₀
      rw [hT3] at hxty
      rw [hT2]
      rcases hx₀ with h' | h'
      · exact h2 x₀ h' hxty
      · rw [h', hsty] at hxty
        simp at hxty
    · intro g
      rw [htr, countP_buy_map_tame hf₂, countP_buy_map_tame hf₁, List.countP_append]
      have hz : List.countP (is_buy_of g) [inserted_row db (sell_trade_of b gb f) (some gb)] = 0 := by
        rw [List.countP_eq_zero]
        intro a ha hpa
        rw [List.mem_singleton.mp ha] at hpa
        have := ((is_buy_of_iff g _).mp hpa).2
        rw [hsty] at this
        simp at this
      have := h3 g
      omega
    · intro x hx hxty g hxg
      obtain ⟨x₀, hx₀, rfl⟩ := hmem x hx
      obtain ⟨hT2, hT3, hT4⟩ := tame_fields hf₁ hf₂ x₀
      rw [hT3] at hxty
      rw [hT2] at hxg
      rw [hT4]
      rcases hx₀ with h' | h'
      · rw [hsold g]
        by_cases hgg : g = gb
        · rw [hgg] at hxg ⊢
          have hsell : is_sell_of gb (inserted_row db (sell_trade_of b gb f) (some gb)) = true := by
            rw [is_sell_of_iff]
            exact ⟨hsgid, hsty⟩
          rw [hsell]
          simp only [if_pos]
          have hx₀b : x₀ = b := by
            apply countP_le_one_eq (is_buy_of gb) db.trades (h3 gb) x₀ b h' hbmem
            · rw [is_buy_of_iff]
              exact ⟨hxg, hxty⟩
            · rw [is_buy_of_iff]
              exact ⟨hgb, hbty⟩
          rw [hx₀b]
          omega
        · have hnsell : is_sell_of g (inserted_row db (sell_trade_of b gb f) (some gb)) = false := by
            rw [← Bool.not_eq_true, is_sell_of_iff, hsgid]
            intro hcon
            exact hgg (Option.some_injective _ hcon.1).symm
          rw [hnsell]
          simp only [Bool.false_eq_true, if_false]
          have := h4 x₀ h' hxty g hxg
          omega
      · rw [h', hsty] at hxty
        simp at hxty

theorem inv_daily (db : DB) (f : DailyForm) (hi : Inv db) : Inv (apply_op db (.daily f)) := by
  rcases hd : daily_submit db f with e | db'
  · have happ : apply_op db (.daily f) = db := by simp [apply_op, hd]
    rw [happ]
    exact hi
  · have happ : apply_op db (.daily f) = db' := by simp [apply_op, hd]
    rw [happ]
    exact inv_of_trades_eq (daily_submit_trades db f db' hd) hi

theorem inv_del_trade (db : DB) (i : Nat) (hi : Inv db) : Inv (apply_op db (.del_trade i)) := by
  obtain ⟨h1, h2, h3, h4⟩ := hi
  have htr : (apply_op db (.del_trade i)).trades = db.trades.filter (fun r => r.id != i) := rfl
  have hsub : (db.trades.filter (fun r => r.id != i)).Sublist db.trades := List.filter_sublist _
  refine ⟨?_, ?_, ?_, ?_⟩
  · intro x hx hxty
    rw [htr] at hx
    exact h1 x (List.mem_of_mem_filter hx) hxty
  · intro x hx hxty
    rw [htr] at hx
    exact h2 x (List.mem_of_mem_filter hx) hxty
  · intro g
    rw [htr]
    exact Nat.le_trans (hsub.countP_le (is_buy_of g)) (h3 g)
  · intro x hx hxty g hxg
    rw [htr] at hx ⊢
    have := h4 x (List.mem_of_mem_filter hx) hxty g hxg
    have hle := sold_sum_sublist hsub g h1
    omega

theorem inv_del_score (db : DB) (i : Nat) (hi : Inv db) : Inv (apply_op db (.del_score i)) := by
  exact inv_of_trades_eq rfl hi

theorem inv_apply_op (db : DB) (op : Op) (hi : Inv db) : Inv (apply_op db op) := by
  cases op with
  | buy f => exact inv_buy db f hi
  | sell f => exact inv_sell db f hi
  | daily f => exact inv_daily db f hi
  | del_trade i => exact inv_del_trade db i hi
  | del_score i => exact inv_del_score db i hi

theorem inv_foldl (l : List Op) : ∀ db : DB, Inv db → Inv (l.foldl apply_op db) := by
  induction l with
  | nil =>
    intro db hdb
    exact hdb
  | cons op l ih =>
    intro db hdb
    rw [List.foldl_cons]
    exact ih _ (inv_apply_op db op hdb)

theorem inv_reach (ops : List Op) : Inv (reach ops) :=
  inv_foldl ops DB.empty inv_empty

theorem pid_tame {f : TradeRow → TradeRow} (hf : tame f) (i : Nat) :
    ∀ x, ((f x).id == i) = (x.id == i) := by
  intro x
  rw [(hf x).1]

/-- C8: the `已结束` (closed) status of a buy row is terminal: whatever user
action runs next — buy or sell submission, daily check-in, hard delete —
the row with the same id, if it still exists afterwards, still has status
`已结束`; no operation of the ledger ever writes `进行中` onto an existing
row. -/
theorem closed_status_is_terminal (db : DB) (op : Op) (i : Nat) (r r' : TradeRow)
    (hr : row_by_id db i = some r) (hcl : r.status = "已结束")
    (hr' : row_by_id (apply_op db op) i = some r') : r'.status = "已结束" := by
  cases op with
  | buy f =>
    rcases hb : buy_submit db f with e | db'
    · have happ : apply_op db (.buy f) = db := by simp [apply_op, hb]
      rw [happ, hr, Option.some.injEq] at hr'
      rw [← hr']
      exact hcl
    · have happ : apply_op db (.buy f) = db' := by simp [apply_op, hb]
      rw [happ] at hr'
      obtain ⟨row, -, -, -, -, -, -, htr⟩ := buy_submit_ok_spec db f db' hb
      unfold row_by_id at hr hr'
      rw [htr, find?_append_left [row] hr, Option.some.injEq] at hr'
      rw [← hr']
      exact hcl
  | sell f =>
    rcases hs : sell_submit db f with e | db'
    · have happ : apply_op db (.sell f) = db := by simp [apply_op, hs]
      rw [happ, hr, Option.some.injEq] at hr'
      rw [← hr']
      exact hcl
    · have happ : apply_op db (.sell f) = db' := by simp [apply_op, hs]
      rw [happ] at hr'
      obtain ⟨b, f₁, f₂, -, -, -, hf₁, hf₂, htr⟩ := sell_submit_ok_spec db f db' hs
      unfold row_by_id at hr hr'
      rw [htr, find?_map_pres (pid_tame hf₂ i), find?_map_pres (pid_tame hf₁ i),
        find?_append_left _ hr] at hr'
      simp only [Option.map_some'] at hr'
      rw [Option.some.injEq] at hr'
      rw [← hr']
      obtain ⟨-, -, -, -, hst₁⟩ := hf₁ r
      obtain ⟨-, -, -, -, hst₂⟩ := hf₂ (f₁ r)
      rcases hst₂ with h2 | h2
      · rw [h2]
        rcases hst₁ with h1 | h1
        · rw [h1]
          exact hcl
        · exact h1
      · exact h2
  | daily f =>
    rcases hd : daily_submit db f with e | db'
    · have happ : apply_op db (.daily f) = db := by simp [apply_op, hd]
      rw [happ, hr, Option.some.injEq] at hr'
      rw [← hr']
      exact hcl
    · have happ : apply_op db (.daily f) = db' := by simp [apply_op, hd]
      rw [happ] at hr'
      unfold row_by_id at hr hr'
      rw [daily_submit_trades db f db' hd, hr, Option.some.injEq] at hr'
      rw [← hr']
      exact hcl
  | del_trade j =>
    have happ : (apply_op db (.del_trade j)).trades = db.trades.filter (fun x => x.id != j) := rfl
    unfold row_by_id at hr hr'
    rw [happ] at hr'
    by_cases hij : j = i
    · subst hij
      have hexcl : ∀ a : TradeRow, (a.id == j) = true → (a.id != j) = false := by
        intro a hpa
        simp at hpa
        simp [hpa]
      rw [find?_filter_of_excl hexcl db.trades] at hr'
      exact Option.noConfusion hr'
    · have himp : ∀ a : TradeRow, (a.id == i) = true → (a.id != j) = true := by
        intro a hpa
        simp at hpa
        simp [hpa]
        exact fun hcon => hij hcon.symm
      rw [find?_filter_of_imp himp db.trades, hr, Option.some.injEq] at hr'
      rw [← hr']
      exact hcl
  | del_score j =>
    have happ : (apply_op db (.del_score j)).trades = db.trades := rfl
    unfold row_by_id at hr hr'
    rw [happ, hr, Option.some.injEq] at hr'
    rw [← hr']
    exact hcl

/-- C2: an oversized sell request — one whose quantity together with the
already-sold total of the lot would exceed the buy quantity — is rejected
by the sell handler with the capacity error and the store is left exactly
as it was; and consequently, in every store reachable from a fresh database
by any sequence of user actions, the sold total of every lot is at most the
lot's buy quantity. -/
theorem sell_capacity_guard :
    (∀ (db : DB) (f : SellForm) (b : TradeRow),
        (get_active_trades db).find? (fun r => r.id == f.selected_trade_id) = some b →
        0 < f.sell_price → 0 < f.sell_quantity →
        b.quantity - get_sold_quantity db (b.trade_group_id.getD b.id) < f.sell_quantity →
        sell_submit db f = .error .capacity_exceeded ∧ apply_op db (.sell f) = db) ∧
    (∀ ops : List Op, ∀ r ∈ (reach ops).trades, r.trade_type = "买入" →
        ∀ g, r.trade_group_id = some g → get_sold_quantity (reach ops) g ≤ r.quantity) := by
  constructor
  · intro db f b hfind hp hq hover
    have herr : sell_submit db f = .error .capacity_exceeded := by
      simp only [sell_submit, hfind]
      rw [if_neg (not_le.mpr hp), if_neg (not_le.mpr hq), if_pos hover]
    exact ⟨herr, by simp [apply_op, herr]⟩
  · intro ops r hmem hty g hg
    exact (inv_reach ops).2.2.2 r hmem hty g hg

/-- C4: for valid prices the sell classifier is total over the two sell
labels, with the stated boundary behaviour: a relative change strictly
above +1% gives the profit-taken label, strictly below −1% the loss-cut
label, and inside the closed band (both endpoints included) the raw
comparison `sell > buy` tie-breaks. -/
theorem classify_sell_two_labels (b s : ℚ) (hb : 0 < b) (hs : 0 < s) :
    (detect_sell_action_type b s = some "涨了舍得卖" ∨
      detect_sell_action_type b s = some "跌了舍得卖") ∧
    ((s - b) / b > 1/100 → detect_sell_action_type b s = some "涨了舍得卖") ∧
    ((s - b) / b < -(1/100) → detect_sell_action_type b s = some "跌了舍得卖") ∧
    (-(1/100) ≤ (s - b) / b → (s - b) / b ≤ 1/100 →
      detect_sell_action_type b s =
        if s > b then some "涨了舍得卖" else some "跌了舍得卖") := by
  have hg : ¬(b ≤ 0 ∨ s ≤ 0) := by
    push_neg
    exact ⟨hb, hs⟩
  simp only [detect_sell_action_type, if_neg hg]
  refine ⟨?_, ?_, ?_, ?_⟩
  · split_ifs with h1 h2 h3
    · exact Or.inl rfl
    · exact Or.inr rfl
    · exact Or.inl rfl
    · exact Or.inr rfl
  · intro h
    rw [if_pos h]
  · intro h
    rw [if_neg (by linarith), if_pos h]
  · intro h1 h2
    rw [if_neg (not_lt.mpr h2), if_neg (not_lt.mpr h1)]

/-- C5: non-positive prices are rejected by the input guards: the objective
scorer returns its failure value 0 whenever the buy price is non-positive,
and the sell classifier returns its failure value `none` whenever either
price is non-positive — in both functions this is the first check, before
any arithmetic. -/
theorem invalid_input_guards (a : String) (b s : ℚ) :
    (b ≤ 0 → calculate_objective_score a b s = 0) ∧
    ((b ≤ 0 ∨ s ≤ 0) → detect_sell_action_type b s = none) := by
  constructor
  · intro h
    simp only [calculate_objective_score, if_pos h]
  · intro h
    simp only [detect_sell_action_type, if_pos h]

/-- C6 (amended): when the last observed close lies inside the ±1% band
around the buy price, the buy classifier falls back to the mean of the
observed closes — but against the strict comparison `mean > buyPrice`:
strictly above gives the rallied label, and at or below the buy price
(equality included) the dipped label. -/
theorem classify_buy_band_fallback (c : ℚ) (cs : List ℚ) (bp : ℚ)
    (h₁ : (c :: cs).getLast (List.cons_ne_nil c cs) ≤ bp * (101/100))
    (h₂ : bp * (99/100) ≤ (c :: cs).getLast (List.cons_ne_nil c cs)) :
    ((c :: cs).sum / ((c :: cs).length : ℚ) > bp →
        detect_buy_action_type (c :: cs) bp = some "涨了敢买") ∧
    ((c :: cs).sum / ((c :: cs).length : ℚ) ≤ bp →
        detect_buy_action_type (c :: cs) bp = some "跌了敢买") := by
  simp only [detect_buy_action_type, if_neg (not_lt.mpr h₁), if_neg (not_lt.mpr h₂)]
  constructor
  · intro h
    rw [if_pos h]
  · intro h
    rw [if_neg (not_lt.mpr h)]

/-- C7 (amended): a buy insert allocates the lot id as one greater than the
current maximum `trade_group_id` of the table and returns the autoincrement
row id; the two counters differ in general (the row counter also counts
sell rows), so the stored lot id need not equal the new row's own id. -/
theorem buy_insert_allocates_max_plus_one (db : DB) (t : Trade) (h : t.trade_type = "买入") :
    (add_trade db t).2 = db.next_trade_id ∧
    (add_trade db t).1.trades =
      db.trades ++ [inserted_row db t (some (max_trade_group_id db.trades + 1))] := by
  rw [add_trade_buy db t h]
  exact ⟨rfl, rfl⟩

/-! ### Concrete evaluations

The arithmetic of `Rat` is sealed behind `irreducible` in the library; the
local attribute below re-opens it so that the kernel can evaluate the
embedded program on the closed inputs above. -/

section

attribute [local semireducible] Rat.add Rat.sub Rat.mul Rat.inv Rat.ofScientific

/-- C1 (divergence of the code from the spec): after insertBuy(1000) and
insertSell(400) the sold total is 400 < 1000, yet the buy row's status is
already `已结束` and the lot has vanished from the open list — the
unconditional UPDATE in `add_trade` closes the lot on the first sell,
partial or not. -/
theorem partial_sell_closes_lot :
    (row_by_id (reach [Op.buy buy_form_a, Op.sell sell_form_partial]) 1).map TradeRow.status
        = some "已结束" ∧
    get_sold_quantity (reach [Op.buy buy_form_a, Op.sell sell_form_partial]) 1 = 400 ∧
    (row_by_id (reach [Op.buy buy_form_a, Op.sell sell_form_partial]) 1).map TradeRow.quantity
        = some 1000 ∧
    get_active_trades (reach [Op.buy buy_form_a, Op.sell sell_form_partial]) = [] := by
  decide

/-- C3: the objective scorer hits the documented values — 5% profit caps
profit-taken at 30, 2.5% gives the truncated 15, a 3% loss on loss-cut
gives int(20·(1−3/5)) = 8 — and the last conjunct separates truncation from
rounding: 4.99% gives 30·4.99/5 = 29.94, stored as 29 where rounding would
give 30. -/
theorem objective_score_examples :
    calculate_objective_score "涨了舍得卖" 100 105 = 30 ∧
    calculate_objective_score "涨了舍得卖" 100 (205/2) = 15 ∧
    calculate_objective_score "跌了舍得卖" 100 97 = 8 ∧
    calculate_objective_score "涨了舍得卖" 100 (10499/100) = 29 := by
  decide

/-- C6 (counterexample): with a single observed close equal to the buy
price the last close lies inside the ±1% band and the mean equals the buy
price, so the claimed `mean ≥ buyPrice → rallied` rule would give the
rallied label — but the code compares strictly and returns the dipped
label. -/
theorem classify_buy_boundary_counterexample :
    detect_buy_action_type [100] 100 = some "跌了敢买" ∧
    (100 : ℚ) ≤ 100 * (101/100) ∧ 100 * (99/100) ≤ (100 : ℚ) ∧
    [(100 : ℚ)].sum / (([(100 : ℚ)].length : ℚ)) = 100 ∧
    (some "跌了敢买" : Option String) ≠ some "涨了敢买" := by
  decide

/-- C7 (counterexample): after buy – sell-all – buy, the second buy insert
returns row id 3 (the autoincrement counter also counted the sell row) but
stores lot id 2 (one above the previous maximum lot id), so the new buy
row's lot id differs from its own id. -/
theorem lot_id_differs_from_row_id :
    (add_trade (reach [Op.buy buy_form_a, Op.sell sell_form_full]) trade_buy_b).2 = 3 ∧
    ((add_trade (reach [Op.buy buy_form_a, Op.sell sell_form_full]) trade_buy_b).1.trades.getLast?).map
        TradeRow.trade_group_id = some (some 2) ∧
    (3 : Nat) ≠ 2 := by
  decide

/-- C9 (divergence of the code from the spec): the first daily self-check
for a date saves its entry, but re-submitting the same check for the same
date does not replace it — the overwrite loop reads column `id` of the rows
returned by `get_scores_by_date_range`, whose SELECT does not include `id`,
so the handler raises `KeyError` and the store is left unchanged (old entry
kept, new one not inserted). -/
theorem daily_resubmission_raises_keyerror :
    daily_submit DB.empty daily_form_a = .ok (save_daily_scores DB.empty daily_form_a) ∧
    (save_daily_scores DB.empty daily_form_a).scores.length = 1 ∧
    daily_submit (save_daily_scores DB.empty daily_form_a) daily_form_a
        = .error (.key_error "id") ∧
    apply_op (save_daily_scores DB.empty daily_form_a) (Op.daily daily_form_a)
        = save_daily_scores DB.empty daily_form_a := by
  decide

/-- C10 (divergence of the code from the spec): the daily handler's
overwrite query selects every subjective row of the date, including the
trade-attached one saved by a buy submission (its filter is only on date
and score kind, not on `trade_id`), but the deletion never happens: the
query's rows carry no `id` column, the handler raises `KeyError` and the
store — including the trade-attached row — is left untouched. -/
theorem daily_overwrite_scope_and_keyerror :
    db_after_scored_buy.scores.map (fun s => (s.trade_id, s.date, s.score_type))
        = [(some 1, "2024-05-06", "主观评分")] ∧
    get_scores_by_date_range db_after_scored_buy "2024-05-06" "2024-05-06" (some "主观评分")
        = [⟨"2024-05-06", "跌了敢买", "主观评分", 30, none, none⟩] ∧
    daily_submit db_after_scored_buy daily_form_a = .error (.key_error "id") ∧
    apply_op db_after_scored_buy (Op.daily daily_form_a) = db_after_scored_buy := by
  decide

/-- Witness for C2: on the store holding only the open 1000-share lot, the
1001-share sell request satisfies every hypothesis of the capacity theorem
and is rejected with the capacity error, leaving the store unchanged. -/
theorem sell_capacity_guard_witness :
    (get_active_trades (reach [Op.buy buy_form_a])).find?
        (fun r => r.id == sell_form_oversized.selected_trade_id) = some buy_row_a ∧
    (0 : ℚ) < sell_form_oversized.sell_price ∧
    (0 : ℤ) < sell_form_oversized.sell_quantity ∧
    buy_row_a.quantity - get_sold_quantity (reach [Op.buy buy_form_a])
        (buy_row_a.trade_group_id.getD buy_row_a.id) < sell_form_oversized.sell_quantity ∧
    sell_submit (reach [Op.buy buy_form_a]) sell_form_oversized = .error .capacity_exceeded ∧
    apply_op (reach [Op.buy buy_form_a]) (Op.sell sell_form_oversized) = reach [Op.buy buy_form_a] :=
  ⟨by decide, by decide, by decide, by decide,
    (sell_capacity_guard.1 (reach [Op.buy buy_form_a]) sell_form_oversized buy_row_a
      (by decide) (by decide) (by decide) (by decide)).1,
    (sell_capacity_guard.1 (reach [Op.buy buy_form_a]) sell_form_oversized buy_row_a
      (by decide) (by decide) (by decide) (by decide)).2⟩

/-- Witness for C4: at prices 100 → 101 (a +1% change, on the boundary) the
classifier returns one of the two sell labels. -/
theorem classify_sell_two_labels_witness :
    (0 : ℚ) < 100 ∧ (0 : ℚ) < 101 ∧
    (detect_sell_action_type 100 101 = some "涨了舍得卖" ∨
      detect_sell_action_type 100 101 = some "跌了舍得卖") :=
  ⟨by decide, by decide, (classify_sell_two_labels 100 101 (by decide) (by decide)).1⟩

/-- Witness for C5: a negative buy price makes the scorer return 0 and the
classifier return none. -/
theorem invalid_input_guards_witness :
    ((-5 : ℚ) ≤ 0) ∧ calculate_objective_score "涨了舍得卖" (-5) 3 = 0 ∧
    detect_sell_action_type (-5) 3 = none :=
  ⟨by decide, (invalid_input_guards "涨了舍得卖" (-5) 3).1 (by decide),
    (invalid_input_guards "涨了舍得卖" (-5) 3).2 (Or.inl (by decide))⟩

/-- Witness for C6 (amended): closes 99 then 101 around a buy at 100 — the
last close 101 sits on the upper band edge, the mean is exactly 100, and
the classifier returns the dipped label. -/
theorem classify_buy_band_fallback_witness :
    ([(99 : ℚ), 101].getLast (List.cons_ne_nil 99 [101]) ≤ 100 * (101/100)) ∧
    (100 * (99/100) ≤ [(99 : ℚ), 101].getLast (List.cons_ne_nil 99 [101])) ∧
    detect_buy_action_type [99, 101] 100 = some "跌了敢买" :=
  ⟨by decide, by decide,
    (classify_buy_band_fallback 99 [101] 100 (by decide) (by decide)).2 (by decide)⟩

/-- Witness for C7 (amended): the first buy insert on a fresh store returns
row id 1 and stores lot id 1 = max(∅) + 1. -/
theorem buy_insert_allocates_max_plus_one_witness :
    trade_buy_b.trade_type = "买入" ∧
    (add_trade DB.empty trade_buy_b).2 = DB.empty.next_trade_id ∧
    (add_trade DB.empty trade_buy_b).1.trades =
      DB.empty.trades ++
        [inserted_row DB.empty trade_buy_b (some (max_trade_group_id DB.empty.trades + 1))] :=
  ⟨rfl, (buy_insert_allocates_max_plus_one DB.empty trade_buy_b rfl).1,
    (buy_insert_allocates_max_plus_one DB.empty trade_buy_b rfl).2⟩

/-- Witness for C8: after the lot is fully sold its buy row is closed, and
running one more user action (a sell attempt on the closed lot) leaves the
row closed. -/
theorem closed_status_is_terminal_witness :
    row_by_id (reach [Op.buy buy_form_a, Op.sell sell_form_full]) 1 = some buy_row_closed ∧
    buy_row_closed.status = "已结束" ∧
    row_by_id (apply_op (reach [Op.buy buy_form_a, Op.sell sell_form_full])
        (Op.sell sell_form_partial)) 1 = some buy_row_closed ∧
    buy_row_closed.status = "已结束" :=
  ⟨by decide, by decide, by decide,
    closed_status_is_terminal (reach [Op.buy buy_form_a, Op.sell sell_form_full])
      (Op.sell sell_form_partial) 1 buy_row_closed buy_row_closed
      (by decide) (by decide) (by decide)⟩

end

end StockReflection
